import Mathlib

/-!
Shallow embedding of the Kia vehicle-control HTTP gateway (`src/main.py`).

The gateway exposes five authenticated routes backed by an external
vehicle-cloud session client (`VehicleManager`).  Each Flask handler is
embedded as a pure Lean function taking

  * the configured shared secret (`SECRET_KEY`),
  * the configured target vehicle identifier (`VEHICLE_ID`),
  * a `SessionClient` describing the outcomes of the external calls the
    handler may make (refresh, lock, unlock, start/stop climate),
  * the incoming request's `Authorization` header value,
  * the current registry snapshot (the process-wide
    `vehicle_manager.vehicles` state),

and returning an `Outcome`: the HTTP response, the ordered trace of
session-client calls the handler actually performed, and the registry
snapshot after the request.  JSON values are modelled by the inductive
`JVal`; Python numbers are modelled as integers (no claim depends on
non-integral numerics).  Exceptions raised by the external client are
modelled as `Except.error` carrying the exception text, matching the
`except Exception as e: return jsonify({"error": str(e)}), 500` boundary
in every handler.
-/

/-- JSON value, as produced by Flask request parsing and `jsonify`. -/
inductive JVal where
  | null
  | bool (b : Bool)
  | num (n : Int)
  | str (s : String)
  | arr (xs : List JVal)
  | obj (fields : List (String × JVal))

/-- Vehicle record, projecting the fields of the upstream `Vehicle`
objects that `main.py` reads (`v.id`, `v.name`, `v.model`, `v.year`). -/
structure Vehicle where
  id : String
  name : String
  model : String
  year : Int

/-- Climate options record mirroring the local `ClimateRequestOptions`
class of `main.py` (lines 105-128): eleven fields, in the constructor's
parameter order.  Each field holds the raw JSON value the handler passed
to the constructor. -/
structure ClimateRequestOptions where
  set_temp : JVal
  duration : JVal
  air_condition : JVal
  defrost : JVal
  steering_wheel_heater : JVal
  rear_window_heater : JVal
  side_mirror_heater : JVal
  front_left_seat_status : JVal
  front_right_seat_status : JVal
  rear_left_seat_status : JVal
  rear_right_seat_status : JVal

/-- Outcomes of the external session-client calls a single request may
make.  `refreshAll` models `update_all_vehicles_with_cached_state`: on
success it yields the fresh vehicle snapshot (an ordered list, dict
insertion order); on failure the exception text.  The command fields
model `start_climate`, `stop_climate`, `lock`, `unlock` on the
`VehicleManager`, each returning an opaque result value or failing. -/
structure SessionClient where
  refreshAll : Except String (List Vehicle)
  startClimate : String → ClimateRequestOptions → Except String JVal
  stopClimate : String → Except String JVal
  lock : String → Except String JVal
  unlock : String → Except String JVal

/-- One observable call made to the session client during a request. -/
inductive SessionCall where
  | refresh
  | startClimate (vid : String) (opts : ClimateRequestOptions)
  | stopClimate (vid : String)
  | lock (vid : String)
  | unlock (vid : String)

/-- True exactly for the command-issuing calls (everything but refresh). -/
def isCommand : SessionCall → Bool
  | .refresh => false
  | _ => true

/-- HTTP response: status code and JSON body. -/
structure Response where
  status : Nat
  body : JVal

/-- Result of running one handler: the response, the ordered trace of
session-client calls, and the registry snapshot after the request. -/
structure Outcome where
  response : Response
  calls : List SessionCall
  registry : List Vehicle

/-- JSON error body `jsonify({"error": e})`. -/
def errObj (e : String) : JVal := .obj [("error", .str e)]

/-- The fixed 403 outcome every handler returns when the Authorization
header is absent or differs from the secret: no session-client call is
made and the registry is untouched. -/
def unauthorizedOutcome (st : List Vehicle) : Outcome :=
  ⟨⟨403, errObj "Unauthorized"⟩, [], st⟩

/-- Projection `{"name": v.name, "id": v.id, "model": v.model,
"year": v.year}` built for each vehicle by `list_vehicles`. -/
def vehicleProj (v : Vehicle) : JVal :=
  .obj [("name", .str v.name), ("id", .str v.id), ("model", .str v.model),
        ("year", .num v.year)]

/-- Handler of `GET /list_vehicles` (`main.py` lines 64-102).  Checks the
Authorization header, refreshes the registry, 404s when the snapshot is
empty (the second emptiness check of the source is kept even though the
projected list is empty iff the snapshot is), otherwise returns the
projected vehicle list. -/
def list_vehicles (secret : String) (client : SessionClient)
    (authHeader : Option String) (st : List Vehicle) : Outcome :=
  if authHeader ≠ some secret then unauthorizedOutcome st
  else
    match client.refreshAll with
    | .error e => ⟨⟨500, errObj e⟩, [.refresh], st⟩
    | .ok vs =>
      if vs.isEmpty then ⟨⟨404, errObj "No vehicles found"⟩, [.refresh], vs⟩
      else
        let vehicle_list := vs.map vehicleProj
        if vehicle_list.isEmpty then
          ⟨⟨404, errObj "No valid vehicles found"⟩, [.refresh], vs⟩
        else
          ⟨⟨200, .obj [("status", .str "Success"),
                       ("vehicles", .arr vehicle_list)]⟩,
           [.refresh], vs⟩

/-- Python `dict.get(key, default)` on a parsed JSON object. -/
def jget (data : List (String × JVal)) (key : String) (default : JVal) : JVal :=
  (data.lookup key).getD default

/-- The `ClimateRequestOptions` object constructed by `start_climate`
(`main.py` lines 147-174): each field is `data.get(name, default)` with
the documented default (22, 10, the booleans False, the seat statuses
None). -/
def climateFromData (data : List (String × JVal)) : ClimateRequestOptions :=
  ⟨jget data "set_temp" (.num 22),
   jget data "duration" (.num 10),
   jget data "air_condition" (.bool false),
   jget data "defrost" (.bool false),
   jget data "steering_wheel_heater" (.bool false),
   jget data "rear_window_heater" (.bool false),
   jget data "side_mirror_heater" (.bool false),
   jget data "front_left_seat_status" .null,
   jget data "front_right_seat_status" .null,
   jget data "rear_left_seat_status" .null,
   jget data "rear_right_seat_status" .null⟩

/-- ASCII single-quote character, as it appears in Python error texts. -/
def squote : String := String.singleton (Char.ofNat 39)

/-- Python type name of a JSON value, as it appears in the
`AttributeError` raised by calling `.get` on a non-dict. -/
def pyTypeName : JVal → String
  | .null => "NoneType"
  | .bool _ => "bool"
  | .num _ => "int"
  | .str _ => "str"
  | .arr _ => "list"
  | .obj _ => "dict"

/-- Text of the `AttributeError` raised when `data.get` is called on a
parsed body that is not a JSON object (e.g. `None` for a `null` body). -/
def noAttrGetMsg (j : JVal) : String :=
  squote ++ pyTypeName j ++ squote ++ " object has no attribute " ++
    squote ++ "get" ++ squote

/-- Handler of `POST /start_climate` (`main.py` lines 131-183).  After
the auth check it refreshes the registry, parses the body (`body` is the
outcome of `request.get_json()`: `Except.error` when parsing raised,
otherwise the parsed value), extracts the eleven climate fields with
their defaults, and issues the start-climate command.  A parsed body
that is not a JSON object makes `data.get` raise an `AttributeError`,
caught by the same `except` as every other failure. -/
def start_climate (secret vid : String) (client : SessionClient)
    (authHeader : Option String) (body : Except String JVal)
    (st : List Vehicle) : Outcome :=
  if authHeader ≠ some secret then unauthorizedOutcome st
  else
    match client.refreshAll with
    | .error e => ⟨⟨500, errObj e⟩, [.refresh], st⟩
    | .ok vs =>
      match body with
      | .error e => ⟨⟨500, errObj e⟩, [.refresh], vs⟩
      | .ok (.obj data) =>
        let opts := climateFromData data
        match client.startClimate vid opts with
        | .error e => ⟨⟨500, errObj e⟩, [.refresh, .startClimate vid opts], vs⟩
        | .ok r =>
          ⟨⟨200, .obj [("status", .str "Climate started"), ("result", r)]⟩,
           [.refresh, .startClimate vid opts], vs⟩
      | .ok j => ⟨⟨500, errObj (noAttrGetMsg j)⟩, [.refresh], vs⟩

/-- Handler of `POST /stop_climate` (`main.py` lines 186-205). -/
def stop_climate (secret vid : String) (client : SessionClient)
    (authHeader : Option String) (st : List Vehicle) : Outcome :=
  if authHeader ≠ some secret then unauthorizedOutcome st
  else
    match client.refreshAll with
    | .error e => ⟨⟨500, errObj e⟩, [.refresh], st⟩
    | .ok vs =>
      match client.stopClimate vid with
      | .error e => ⟨⟨500, errObj e⟩, [.refresh, .stopClimate vid], vs⟩
      | .ok r =>
        ⟨⟨200, .obj [("status", .str "Climate stopped"), ("result", r)]⟩,
         [.refresh, .stopClimate vid], vs⟩

/-- Handler of `POST /unlock_car` (`main.py` lines 208-227). -/
def unlock_car (secret vid : String) (client : SessionClient)
    (authHeader : Option String) (st : List Vehicle) : Outcome :=
  if authHeader ≠ some secret then unauthorizedOutcome st
  else
    match client.refreshAll with
    | .error e => ⟨⟨500, errObj e⟩, [.refresh], st⟩
    | .ok vs =>
      match client.unlock vid with
      | .error e => ⟨⟨500, errObj e⟩, [.refresh, .unlock vid], vs⟩
      | .ok r =>
        ⟨⟨200, .obj [("status", .str "Car unlocked"), ("result", r)]⟩,
         [.refresh, .unlock vid], vs⟩

/-- Handler of `POST /lock_car` (`main.py` lines 230-249). -/
def lock_car (secret vid : String) (client : SessionClient)
    (authHeader : Option String) (st : List Vehicle) : Outcome :=
  if authHeader ≠ some secret then unauthorizedOutcome st
  else
    match client.refreshAll with
    | .error e => ⟨⟨500, errObj e⟩, [.refresh], st⟩
    | .ok vs =>
      match client.lock vid with
      | .error e => ⟨⟨500, errObj e⟩, [.refresh, .lock vid], vs⟩
      | .ok r =>
        ⟨⟨200, .obj [("status", .str "Car locked"), ("result", r)]⟩,
         [.refresh, .lock vid], vs⟩

/-- Python falsiness of an optional environment string: `not X` is true
for both an unset variable (`None`) and the empty string. -/
def falsyStr : Option String → Bool
  | none => true
  | some s => s == ""

/-- Bootstrap (`main.py` lines 9-51), in source order: the credential
check (`is None` only, so empty strings pass), the initial token refresh
and vehicle update (`initRefresh` is its outcome; any failure calls
`exit(1)`), the `SECRET_KEY` check (`if not SECRET_KEY`), and the
`VEHICLE_ID` selection: the configured value when truthy, otherwise the
first vehicle of the snapshot, failing when the snapshot is empty.  On
success it yields (shared secret, target vehicle id, initial snapshot). -/
def startup (username password pin secretKey envVehicleId : Option String)
    (initRefresh : Except String (List Vehicle)) :
    Except String (String × String × List Vehicle) :=
  if username = none ∨ password = none ∨ pin = none then
    .error "Missing credentials! Check your environment variables."
  else
    match initRefresh with
    | .error e => .error e
    | .ok vs =>
      if falsyStr secretKey then
        .error "Missing SECRET_KEY environment variable."
      else
        let sk := secretKey.getD ""
        if falsyStr envVehicleId then
          match vs with
          | [] => .error "No vehicles found in the account. Please ensure your Kia account has at least one vehicle."
          | v :: _ => .ok (sk, v.id, vs)
        else
          .ok (sk, envVehicleId.getD "", vs)

/-- Sample vehicle used by concrete instantiations. -/
def sampleVehicle : Vehicle := ⟨"KNDJ0001", "My Kia", "Soul", 2020⟩

/-- Stub command outcome: every command succeeds with an opaque result. -/
def stubCmd : String → Except String JVal := fun _ => .ok (.str "OK")

/-- Stub climate command outcome. -/
def stubClimate : String → ClimateRequestOptions → Except String JVal :=
  fun _ _ => .ok (.str "OK")

/-- Session client whose refresh succeeds with the given snapshot and
whose commands all succeed. -/
def okClient (vs : List Vehicle) : SessionClient :=
  ⟨.ok vs, stubClimate, stubCmd, stubCmd, stubCmd⟩

/-- Session client whose refresh fails with the given exception text. -/
def errClient (e : String) : SessionClient :=
  ⟨.error e, stubClimate, stubCmd, stubCmd, stubCmd⟩

/-- Every session-client call trace a handler can produce is empty (the
403 path), a lone refresh (refresh failed or no command reached), or a
refresh immediately followed by exactly one command. -/
def refreshBeforeCommand (o : Outcome) : Prop :=
  o.calls = [] ∨ o.calls = [SessionCall.refresh] ∨
    ∃ c, isCommand c = true ∧ o.calls = [SessionCall.refresh, c]

/-- C1: any request to one of the five protected routes whose
Authorization header is absent or not exactly the configured secret gets
the fixed 403 `{"error": "Unauthorized"}` response, with no
session-client call made and the registry untouched. -/
theorem c1_unauthorized_403_no_calls (secret vid : String)
    (client : SessionClient) (authHeader : Option String)
    (body : Except String JVal) (st : List Vehicle)
    (h : authHeader ≠ some secret) :
    list_vehicles secret client authHeader st = unauthorizedOutcome st ∧
    start_climate secret vid client authHeader body st = unauthorizedOutcome st ∧
    stop_climate secret vid client authHeader st = unauthorizedOutcome st ∧
    unlock_car secret vid client authHeader st = unauthorizedOutcome st ∧
    lock_car secret vid client authHeader st = unauthorizedOutcome st ∧
    (unauthorizedOutcome st).response.status = 403 ∧
    (unauthorizedOutcome st).response.body = errObj "Unauthorized" ∧
    (unauthorizedOutcome st).calls = [] := by
  refine ⟨?_, ?_, ?_, ?_, ?_, rfl, rfl, rfl⟩ <;>
    simp [list_vehicles, start_climate, stop_climate, unlock_car, lock_car, h]

/-- Witness for C1 at an absent Authorization header. -/
theorem c1_witness :
    ((none : Option String) ≠ some "sek") ∧
    (list_vehicles "sek" (okClient [sampleVehicle]) none [] = unauthorizedOutcome [] ∧
     start_climate "sek" "KNDJ0001" (okClient [sampleVehicle]) none (.ok .null) [] = unauthorizedOutcome [] ∧
     stop_climate "sek" "KNDJ0001" (okClient [sampleVehicle]) none [] = unauthorizedOutcome [] ∧
     unlock_car "sek" "KNDJ0001" (okClient [sampleVehicle]) none [] = unauthorizedOutcome [] ∧
     lock_car "sek" "KNDJ0001" (okClient [sampleVehicle]) none [] = unauthorizedOutcome [] ∧
     (unauthorizedOutcome []).response.status = 403 ∧
     (unauthorizedOutcome []).response.body = errObj "Unauthorized" ∧
     (unauthorizedOutcome []).calls = []) :=
  ⟨by simp,
   c1_unauthorized_403_no_calls "sek" "KNDJ0001" (okClient [sampleVehicle])
     none (.ok .null) [] (by simp)⟩

/-- C3 counterexample: with a `VEHICLE_ID` explicitly configured,
startup succeeds even though the initial refresh found zero vehicles, so
"startup is fatal regardless of whether a default vehicle identifier is
explicitly configured" is false on the code. -/
theorem c3_counterexample_configured_vid_zero_vehicles :
    startup (some "user") (some "pass") (some "1234") (some "sek")
      (some "KNDJ0001") (.ok []) = .ok ("sek", "KNDJ0001", []) := rfl

/-- C3 (amended): with zero vehicles after the initial refresh, startup
is fatal exactly when no vehicle identifier is configured (env var unset
or empty); with one configured the process starts. -/
theorem c3_amended_zero_vehicles_fatal_only_when_vid_unset
    (u p pin : String) (secretKey envVehicleId : Option String)
    (hsk : falsyStr secretKey = false) (hvid : falsyStr envVehicleId = true) :
    startup (some u) (some p) (some pin) secretKey envVehicleId (.ok []) =
      .error "No vehicles found in the account. Please ensure your Kia account has at least one vehicle." := by
  simp [startup, hsk, hvid]

/-- Witness for the amended C3 with an unset `VEHICLE_ID`. -/
theorem c3_amended_witness :
    falsyStr (some "sek") = false ∧ falsyStr none = true ∧
    startup (some "user") (some "pass") (some "1234") (some "sek") none (.ok []) =
      .error "No vehicles found in the account. Please ensure your Kia account has at least one vehicle." :=
  ⟨rfl, rfl,
   c3_amended_zero_vehicles_fatal_only_when_vid_unset "user" "pass" "1234"
     (some "sek") none rfl rfl⟩

/-- C7: an authorized `/list_vehicles` call whose refresh yields an
empty snapshot returns 404 with the JSON error body. -/
theorem c7_list_vehicles_empty_snapshot_404 (secret : String)
    (f : String → ClimateRequestOptions → Except String JVal)
    (sc l u : String → Except String JVal) (st : List Vehicle) :
    list_vehicles secret ⟨.ok [], f, sc, l, u⟩ (some secret) st =
      ⟨⟨404, errObj "No vehicles found"⟩, [.refresh], []⟩ := by
  simp [list_vehicles]

/-- C8: on every control route, a command call in the trace is always
immediately preceded by the registry refresh (traces are `[]`,
`[refresh]`, or `[refresh, command]`), and every authorized request's
trace begins with the refresh. -/
theorem c8_refresh_precedes_command (secret vid : String)
    (client : SessionClient) (authHeader : Option String)
    (body : Except String JVal) (st : List Vehicle) :
    refreshBeforeCommand (start_climate secret vid client authHeader body st) ∧
    refreshBeforeCommand (stop_climate secret vid client authHeader st) ∧
    refreshBeforeCommand (unlock_car secret vid client authHeader st) ∧
    refreshBeforeCommand (lock_car secret vid client authHeader st) ∧
    (start_climate secret vid client (some secret) body st).calls.head? = some SessionCall.refresh ∧
    (stop_climate secret vid client (some secret) st).calls.head? = some SessionCall.refresh ∧
    (unlock_car secret vid client (some secret) st).calls.head? = some SessionCall.refresh ∧
    (lock_car secret vid client (some secret) st).calls.head? = some SessionCall.refresh := by
  refine ⟨?_, ?_, ?_, ?_, ?_, ?_, ?_, ?_⟩ <;>
    simp only [refreshBeforeCommand, start_climate, stop_climate, unlock_car,
      lock_car, unauthorizedOutcome] <;>
    (repeat' split) <;>
    first
      | exact Or.inl rfl
      | exact Or.inr (Or.inl rfl)
      | (refine Or.inr (Or.inr ⟨_, ?_, rfl⟩); rfl)
      | rfl
      | simp_all

/-- Session client whose refresh succeeds with an empty snapshot but
whose commands all fail with the given exception text. -/
def errCmdClient (e : String) : SessionClient :=
  ⟨.ok [], fun _ _ => .error e, fun _ => .error e, fun _ => .error e,
   fun _ => .error e⟩

/-- Merged-value property for one climate field: `v` is the value the
request body provided for `key` when one was provided, and the default
`dflt` when the key is absent. -/
def fieldMerged (data : List (String × JVal)) (key : String)
    (dflt v : JVal) : Prop :=
  (∀ w, data.lookup key = some w → v = w) ∧
    (data.lookup key = none → v = dflt)

theorem fieldMerged_jget (data : List (String × JVal)) (key : String)
    (dflt : JVal) : fieldMerged data key dflt (jget data key dflt) :=
  ⟨fun w hw => by simp [jget, hw], fun hn => by simp [jget, hn]⟩

/-- C2: an authorized `/start_climate` request with a JSON-object body
passes the session client a `ClimateRequestOptions` whose every field is
the provided value when the body has the key and the documented default
(22, 10, false for the five booleans, unset for the four seat statuses)
when it does not. -/
theorem c2_start_climate_merged_defaults (secret vid : String)
    (f : String → ClimateRequestOptions → Except String JVal)
    (sc l u : String → Except String JVal) (vs st : List Vehicle)
    (data : List (String × JVal)) :
    ∃ opts : ClimateRequestOptions,
      (start_climate secret vid ⟨.ok vs, f, sc, l, u⟩ (some secret)
          (.ok (.obj data)) st).calls
        = [SessionCall.refresh, SessionCall.startClimate vid opts] ∧
      fieldMerged data "set_temp" (.num 22) opts.set_temp ∧
      fieldMerged data "duration" (.num 10) opts.duration ∧
      fieldMerged data "air_condition" (.bool false) opts.air_condition ∧
      fieldMerged data "defrost" (.bool false) opts.defrost ∧
      fieldMerged data "steering_wheel_heater" (.bool false) opts.steering_wheel_heater ∧
      fieldMerged data "rear_window_heater" (.bool false) opts.rear_window_heater ∧
      fieldMerged data "side_mirror_heater" (.bool false) opts.side_mirror_heater ∧
      fieldMerged data "front_left_seat_status" .null opts.front_left_seat_status ∧
      fieldMerged data "front_right_seat_status" .null opts.front_right_seat_status ∧
      fieldMerged data "rear_left_seat_status" .null opts.rear_left_seat_status ∧
      fieldMerged data "rear_right_seat_status" .null opts.rear_right_seat_status := by
  refine ⟨climateFromData data, ?_,
    fieldMerged_jget _ _ _, fieldMerged_jget _ _ _, fieldMerged_jget _ _ _,
    fieldMerged_jget _ _ _, fieldMerged_jget _ _ _, fieldMerged_jget _ _ _,
    fieldMerged_jget _ _ _, fieldMerged_jget _ _ _, fieldMerged_jget _ _ _,
    fieldMerged_jget _ _ _, fieldMerged_jget _ _ _⟩
  cases hf : f vid (climateFromData data) <;> simp [start_climate, hf]

/-- Witness for C2: a body providing only `duration`. -/
theorem c2_witness :
    ∃ opts : ClimateRequestOptions,
      (start_climate "sek" "KNDJ0001"
          ⟨.ok [], stubClimate, stubCmd, stubCmd, stubCmd⟩ (some "sek")
          (.ok (.obj [("duration", .num 30)])) []).calls
        = [SessionCall.refresh, SessionCall.startClimate "KNDJ0001" opts] ∧
      fieldMerged [("duration", .num 30)] "set_temp" (.num 22) opts.set_temp ∧
      fieldMerged [("duration", .num 30)] "duration" (.num 10) opts.duration ∧
      fieldMerged [("duration", .num 30)] "air_condition" (.bool false) opts.air_condition ∧
      fieldMerged [("duration", .num 30)] "defrost" (.bool false) opts.defrost ∧
      fieldMerged [("duration", .num 30)] "steering_wheel_heater" (.bool false) opts.steering_wheel_heater ∧
      fieldMerged [("duration", .num 30)] "rear_window_heater" (.bool false) opts.rear_window_heater ∧
      fieldMerged [("duration", .num 30)] "side_mirror_heater" (.bool false) opts.side_mirror_heater ∧
      fieldMerged [("duration", .num 30)] "front_left_seat_status" .null opts.front_left_seat_status ∧
      fieldMerged [("duration", .num 30)] "front_right_seat_status" .null opts.front_right_seat_status ∧
      fieldMerged [("duration", .num 30)] "rear_left_seat_status" .null opts.rear_left_seat_status ∧
      fieldMerged [("duration", .num 30)] "rear_right_seat_status" .null opts.rear_right_seat_status :=
  c2_start_climate_merged_defaults "sek" "KNDJ0001" stubClimate stubCmd
    stubCmd stubCmd [] [] [("duration", .num 30)]

/-- C4: any session-client failure during a control request surfaces as
HTTP 500 with the failure text in the `error` field of the JSON body,
the trace shows no retry (one refresh, at most one command), the registry
is the last successfully refreshed snapshot, and a later request against
a succeeding client is served normally. -/
theorem c4_upstream_error_500 (secret vid : String) (st : List Vehicle) :
    (∀ (client : SessionClient) (e : String) (body : Except String JVal),
        client.refreshAll = .error e →
        stop_climate secret vid client (some secret) st =
          ⟨⟨500, errObj e⟩, [.refresh], st⟩ ∧
        unlock_car secret vid client (some secret) st =
          ⟨⟨500, errObj e⟩, [.refresh], st⟩ ∧
        lock_car secret vid client (some secret) st =
          ⟨⟨500, errObj e⟩, [.refresh], st⟩ ∧
        start_climate secret vid client (some secret) body st =
          ⟨⟨500, errObj e⟩, [.refresh], st⟩) ∧
    (∀ (client : SessionClient) (vs : List Vehicle) (e : String),
        client.refreshAll = .ok vs →
        (client.stopClimate vid = .error e →
          stop_climate secret vid client (some secret) st =
            ⟨⟨500, errObj e⟩, [.refresh, .stopClimate vid], vs⟩) ∧
        (client.unlock vid = .error e →
          unlock_car secret vid client (some secret) st =
            ⟨⟨500, errObj e⟩, [.refresh, .unlock vid], vs⟩) ∧
        (client.lock vid = .error e →
          lock_car secret vid client (some secret) st =
            ⟨⟨500, errObj e⟩, [.refresh, .lock vid], vs⟩) ∧
        (∀ data : List (String × JVal),
          client.startClimate vid (climateFromData data) = .error e →
          start_climate secret vid client (some secret) (.ok (.obj data)) st =
            ⟨⟨500, errObj e⟩, [.refresh, .startClimate vid (climateFromData data)], vs⟩)) ∧
    (∀ (client2 : SessionClient) (vs2 st2 : List Vehicle) (r : JVal),
        client2.refreshAll = .ok vs2 → client2.unlock vid = .ok r →
        (unlock_car secret vid client2 (some secret) st2).response.status = 200) := by
  refine ⟨?_, ?_, ?_⟩
  · intro client e body h
    refine ⟨?_, ?_, ?_, ?_⟩ <;>
      simp [stop_climate, unlock_car, lock_car, start_climate, h]
  · intro client vs e h
    refine ⟨fun hc => ?_, fun hc => ?_, fun hc => ?_, fun data hc => ?_⟩
    · simp [stop_climate, h, hc]
    · simp [unlock_car, h, hc]
    · simp [lock_car, h, hc]
    · simp [start_climate, h, hc]
  · intro client2 vs2 st2 r h hr
    simp [unlock_car, h, hr]

/-- Witness for C4: a failing refresh, a failing lock command, and a
subsequent successful unlock. -/
theorem c4_witness :
    (errClient "boom").refreshAll = Except.error "boom" ∧
    stop_climate "sek" "KNDJ0001" (errClient "boom") (some "sek") [] =
      ⟨⟨500, errObj "boom"⟩, [.refresh], []⟩ ∧
    (errCmdClient "bad").refreshAll = Except.ok [] ∧
    (errCmdClient "bad").lock "KNDJ0001" = Except.error "bad" ∧
    lock_car "sek" "KNDJ0001" (errCmdClient "bad") (some "sek") [] =
      ⟨⟨500, errObj "bad"⟩, [.refresh, .lock "KNDJ0001"], []⟩ ∧
    (okClient []).refreshAll = Except.ok [] ∧
    (okClient []).unlock "KNDJ0001" = Except.ok (.str "OK") ∧
    (unlock_car "sek" "KNDJ0001" (okClient []) (some "sek") []).response.status = 200 :=
  ⟨rfl,
   ((c4_upstream_error_500 "sek" "KNDJ0001" []).1 (errClient "boom") "boom"
       (.ok .null) rfl).1,
   rfl, rfl,
   ((c4_upstream_error_500 "sek" "KNDJ0001" []).2.1 (errCmdClient "bad") []
       "bad" rfl).2.2.1 rfl,
   rfl, rfl,
   (c4_upstream_error_500 "sek" "KNDJ0001" []).2.2 (okClient []) [] []
     (.str "OK") rfl rfl⟩

/-- C5: every 200 response of `/list_vehicles` carries exactly the
post-refresh snapshot projected through `{name, id, model, year}`, one
entry per vehicle, in snapshot order. -/
theorem c5_list_success_is_projection (secret : String)
    (client : SessionClient) (authHeader : Option String)
    (st : List Vehicle)
    (h : (list_vehicles secret client authHeader st).response.status = 200) :
    ∃ vs, client.refreshAll = .ok vs ∧
      (list_vehicles secret client authHeader st).registry = vs ∧
      (list_vehicles secret client authHeader st).response.body =
        .obj [("status", .str "Success"),
              ("vehicles", .arr (vs.map vehicleProj))] ∧
      (vs.map vehicleProj).length = vs.length ∧
      ∀ i, (vs.map vehicleProj).get? i = (vs.get? i).map vehicleProj := by
  by_cases hauth : authHeader = some secret
  · subst hauth
    rcases hre : client.refreshAll with e | vs
    · simp [list_vehicles, hre] at h
    · cases vs with
      | nil => simp [list_vehicles, hre] at h
      | cons v tl =>
        refine ⟨v :: tl, rfl, ?_, ?_, by simp,
          fun i => by cases i <;> simp [List.getElem?_map]⟩ <;>
          simp [list_vehicles, hre]
  · simp [list_vehicles, hauth, unauthorizedOutcome] at h

/-- Witness for C5 at a one-vehicle snapshot. -/
theorem c5_witness :
    (list_vehicles "sek" (okClient [sampleVehicle]) (some "sek") []).response.status = 200 ∧
    ∃ vs, (okClient [sampleVehicle]).refreshAll = .ok vs ∧
      (list_vehicles "sek" (okClient [sampleVehicle]) (some "sek") []).registry = vs ∧
      (list_vehicles "sek" (okClient [sampleVehicle]) (some "sek") []).response.body =
        .obj [("status", .str "Success"),
              ("vehicles", .arr (vs.map vehicleProj))] ∧
      (vs.map vehicleProj).length = vs.length ∧
      ∀ i, (vs.map vehicleProj).get? i = (vs.get? i).map vehicleProj :=
  ⟨rfl, c5_list_success_is_projection "sek" (okClient [sampleVehicle])
    (some "sek") [] rfl⟩

/-- C6: with no `VEHICLE_ID` configured, startup selects the first
vehicle of the initial snapshot as the target, and a subsequent
authorized `/lock_car` issues its lock command against exactly that
identifier. -/
theorem c6_default_target_is_first_vehicle (u p pin sk : String)
    (hsk : falsyStr (some sk) = false) (v : Vehicle) (rest : List Vehicle) :
    startup (some u) (some p) (some pin) (some sk) none (.ok (v :: rest)) =
      .ok (sk, v.id, v :: rest) ∧
    ∀ (client : SessionClient) (vs st : List Vehicle),
      client.refreshAll = .ok vs →
      (lock_car sk v.id client (some sk) st).calls =
        [SessionCall.refresh, SessionCall.lock v.id] := by
  constructor
  · have hsk2 : ¬ sk = "" := by simpa [falsyStr] using hsk
    simp [startup, falsyStr, hsk2]
  · intro client vs st h
    cases hc : client.lock v.id <;> simp [lock_car, h, hc]

/-- Witness for C6: one-vehicle account, unset `VEHICLE_ID`. -/
theorem c6_witness :
    falsyStr (some "sek") = false ∧
    startup (some "user") (some "pass") (some "1234") (some "sek") none
        (.ok [sampleVehicle]) =
      .ok ("sek", sampleVehicle.id, [sampleVehicle]) ∧
    (lock_car "sek" sampleVehicle.id (okClient [sampleVehicle]) (some "sek") []).calls =
      [SessionCall.refresh, SessionCall.lock sampleVehicle.id] :=
  ⟨rfl,
   (c6_default_target_is_first_vehicle "user" "pass" "1234" "sek" rfl
       sampleVehicle []).1,
   (c6_default_target_is_first_vehicle "user" "pass" "1234" "sek" rfl
       sampleVehicle []).2 (okClient [sampleVehicle]) [sampleVehicle] [] rfl⟩

/-- C9: two successive authorized `/lock_car` requests against a
succeeding client (the second starting from the registry state the first
left behind) get identical 200 acknowledgements and each issues its own
refresh-then-lock pair: no deduplication. -/
theorem c9_lock_twice_two_acks (secret vid : String) (vs st : List Vehicle)
    (r : JVal) (f : String → ClimateRequestOptions → Except String JVal)
    (sc u : String → Except String JVal) :
    (lock_car secret vid ⟨.ok vs, f, sc, fun _ => .ok r, u⟩ (some secret)
        ((lock_car secret vid ⟨.ok vs, f, sc, fun _ => .ok r, u⟩
            (some secret) st).registry)).response =
      (lock_car secret vid ⟨.ok vs, f, sc, fun _ => .ok r, u⟩
          (some secret) st).response ∧
    (lock_car secret vid ⟨.ok vs, f, sc, fun _ => .ok r, u⟩
        (some secret) st).response =
      ⟨200, .obj [("status", .str "Car locked"), ("result", r)]⟩ ∧
    (lock_car secret vid ⟨.ok vs, f, sc, fun _ => .ok r, u⟩ (some secret)
        ((lock_car secret vid ⟨.ok vs, f, sc, fun _ => .ok r, u⟩
            (some secret) st).registry)).calls =
      [SessionCall.refresh, SessionCall.lock vid] ∧
    (lock_car secret vid ⟨.ok vs, f, sc, fun _ => .ok r, u⟩
        (some secret) st).calls =
      [SessionCall.refresh, SessionCall.lock vid] := by
  refine ⟨?_, ?_, ?_, ?_⟩ <;> simp [lock_car]

/-- C10: an authorized `/start_climate` whose body parsing raised (body
absent, empty, or not JSON) or parsed to `null` answers 500 with a JSON
error body, and the trace contains only the refresh: no start-climate
command is issued and no defaults are applied. -/
theorem c10_bad_body_500_no_climate_command (secret vid : String)
    (client : SessionClient) (st : List Vehicle) (body : Except String JVal)
    (hbad : (∃ e, body = Except.error e) ∨ body = Except.ok JVal.null) :
    (start_climate secret vid client (some secret) body st).response.status = 500 ∧
    (∃ msg, (start_climate secret vid client (some secret) body st).response.body
      = errObj msg) ∧
    (start_climate secret vid client (some secret) body st).calls =
      [SessionCall.refresh] := by
  rcases hbad with ⟨e, he⟩ | he <;> subst he
  · rcases hre : client.refreshAll with e2 | vs
    · exact ⟨by simp [start_climate, hre], ⟨e2, by simp [start_climate, hre]⟩,
        by simp [start_climate, hre]⟩
    · exact ⟨by simp [start_climate, hre], ⟨e, by simp [start_climate, hre]⟩,
        by simp [start_climate, hre]⟩
  · rcases hre : client.refreshAll with e2 | vs
    · exact ⟨by simp [start_climate, hre], ⟨e2, by simp [start_climate, hre]⟩,
        by simp [start_climate, hre]⟩
    · exact ⟨by simp [start_climate, hre],
        ⟨noAttrGetMsg .null, by simp [start_climate, hre]⟩,
        by simp [start_climate, hre]⟩

/-- Witness for C10 at a `null` body. -/
theorem c10_witness :
    ((∃ e, (Except.ok JVal.null : Except String JVal) = Except.error e) ∨
      (Except.ok JVal.null : Except String JVal) = Except.ok JVal.null) ∧
    (start_climate "sek" "KNDJ0001" (okClient []) (some "sek")
        (.ok .null) []).response.status = 500 ∧
    (∃ msg, (start_climate "sek" "KNDJ0001" (okClient []) (some "sek")
        (.ok .null) []).response.body = errObj msg) ∧
    (start_climate "sek" "KNDJ0001" (okClient []) (some "sek")
        (.ok .null) []).calls = [SessionCall.refresh] :=
  ⟨Or.inr rfl,
   c10_bad_body_500_no_climate_command "sek" "KNDJ0001" (okClient []) []
     (.ok .null) (Or.inr rfl)⟩
